import Mathlib

/-!
Verification of the inventory server (`src/server.ts`).

The server is an Express application over a SQLite database
(`better-sqlite3`, `foreign_keys = ON`).  We embed the relational store as
a Lean structure of four record lists plus the AUTOINCREMENT counters, and
each API route handler as a pure function `Store → inputs → ApiResult × Store`.
JSON `null` request fields are modelled as `Option.none`; SQL `NULL` columns
as `Option`.  Each `db.transaction(...)` block becomes a single pure step,
so its all-or-nothing behaviour is by construction; an uncaught SQLite
constraint violation rolls the block back and surfaces as an HTTP error.
-/

namespace Inventory

/-- `type TEXT CHECK(type IN ('IN', 'OUT'))` on the transactions table. -/
inductive TxType where
  | IN : TxType
  | OUT : TxType
deriving DecidableEq, Repr

/-- A row of `categories (id INTEGER PRIMARY KEY, name TEXT NOT NULL UNIQUE)`. -/
structure Category where
  id : Nat
  name : String
deriving DecidableEq, Repr

/-- A row of `locations (id INTEGER PRIMARY KEY, name TEXT NOT NULL UNIQUE)`. -/
structure Location where
  id : Nat
  name : String
deriving DecidableEq, Repr

/-- A row of the `materials` table.  `category_id`, `min_stock`, `location`
and `image` are nullable columns (the insert binds whatever the request
carried, so an explicit `NULL` is representable); `stock` defaults to 0. -/
structure Material where
  id : Nat
  name : String
  category_id : Option Nat
  unit : String
  stock : Int
  min_stock : Option Int
  location : Option String
  image : Option String
deriving DecidableEq, Repr

/-- A row of the `transactions` table.  `date DATETIME DEFAULT
CURRENT_TIMESTAMP` is modelled by a monotone clock stamped at insertion. -/
structure Transaction where
  id : Nat
  material_id : Option Nat
  type : TxType
  quantity : Int
  date : Nat
  notes : Option String
deriving DecidableEq, Repr

/-- The relational store: the four tables, their AUTOINCREMENT counters and
the timestamp clock. -/
structure Store where
  categories : List Category
  locations : List Location
  materials : List Material
  transactions : List Transaction
  nextCategoryId : Nat
  nextLocationId : Nat
  nextMaterialId : Nat
  nextTransactionId : Nat
  clock : Nat
deriving DecidableEq, Repr

/-- Outcome of a route handler, as the distinct JSON responses the handlers
produce: `ok` is `res.json(\x7bsuccess: true\x7d)`, `okId` is
`res.json(\x7bid: ...\x7d)`, `validationError` / `conflictError` are the two
kinds of 400 response, `stillInUse` is the 400 response that reports the
dependent-material count, `notFound` is 404 and `serverError` is 500. -/
inductive ApiResult where
  | ok : ApiResult
  | okId (id : Nat) : ApiResult
  | validationError (msg : String) : ApiResult
  | conflictError (msg : String) : ApiResult
  | stillInUse (count : Nat) : ApiResult
  | notFound (msg : String) : ApiResult
  | serverError (msg : String) : ApiResult
deriving DecidableEq, Repr

/-- Whether a response is one of the duplicate-name conflict responses. -/
def ApiResult.isConflict : ApiResult → Bool
  | ApiResult.conflictError _ => true
  | _ => false

/-- `saveImage` (server.ts:20): a value that is absent or not a data-URL is
passed through (`base64Data || null`, so the empty string becomes `NULL`);
a data-URL is written to the image directory and replaced by the generated
`/images/...` path.  The generated file name (timestamp + random suffix) is
a blob-store side channel outside the relational store, abstracted here to
a fixed path; no claim inspects it. -/
def saveImage (base64Data : Option String) : Option String :=
  match base64Data with
  | none => none
  | some s =>
    if s.startsWith "data:image" then some "/images/img"
    else if s = "" then none
    else some s

/-- `POST /api/locations` (server.ts:126): rejects a missing/empty name,
then `INSERT INTO locations (name) VALUES (?)`; a `SQLITE_CONSTRAINT_UNIQUE`
failure is answered with the duplicate-name 400. -/
def postLocation (st : Store) (name : Option String) : ApiResult × Store :=
  match name with
  | none => (ApiResult.validationError "Nama lokasi wajib diisi.", st)
  | some s =>
    if s = "" then (ApiResult.validationError "Nama lokasi wajib diisi.", st)
    else if st.locations.any (fun l => l.name = s) then
      (ApiResult.conflictError "Nama lokasi sudah ada.", st)
    else
      (ApiResult.okId st.nextLocationId,
       { st with
          locations := st.locations ++ [⟨st.nextLocationId, s⟩],
          nextLocationId := st.nextLocationId + 1 })

/-- `PUT /api/locations/:id` (server.ts:143): no validation; runs
`UPDATE locations SET name = ? WHERE id = ?`.  A `NULL` name violates
`NOT NULL` and a name held by another row violates `UNIQUE`; either lands in
the catch-all 500.  A missing id updates zero rows and still reports
success. -/
def putLocation (st : Store) (id : Nat) (name : Option String) : ApiResult × Store :=
  match name with
  | none => (ApiResult.serverError "Gagal memperbarui lokasi.", st)
  | some s =>
    if st.locations.any (fun l => l.id ≠ id ∧ l.name = s) then
      (ApiResult.serverError "Gagal memperbarui lokasi.", st)
    else
      (ApiResult.ok,
       { st with
          locations := st.locations.map (fun l => if l.id = id then { l with name := s } else l) })

/-- `DELETE /api/locations/:id` (server.ts:155): 404 when the id resolves to
no row; otherwise counts `materials WHERE location = ?` against the resolved
row's name (SQL `=` never matches a `NULL` location) and refuses while the
count is positive; otherwise deletes the row. -/
def deleteLocation (st : Store) (id : Nat) : ApiResult × Store :=
  match st.locations.find? (fun l => l.id = id) with
  | none => (ApiResult.notFound "Lokasi tidak ditemukan.", st)
  | some loc =>
    let count := st.materials.countP (fun m => m.location = some loc.name)
    if 0 < count then (ApiResult.stillInUse count, st)
    else
      (ApiResult.ok, { st with locations := st.locations.filter (fun l => l.id ≠ id) })

/-- `POST /api/categories` (server.ts:187): same shape as `postLocation`. -/
def postCategory (st : Store) (name : Option String) : ApiResult × Store :=
  match name with
  | none => (ApiResult.validationError "Nama kategori wajib diisi.", st)
  | some s =>
    if s = "" then (ApiResult.validationError "Nama kategori wajib diisi.", st)
    else if st.categories.any (fun c => c.name = s) then
      (ApiResult.conflictError "Nama kategori sudah ada.", st)
    else
      (ApiResult.okId st.nextCategoryId,
       { st with
          categories := st.categories ++ [⟨st.nextCategoryId, s⟩],
          nextCategoryId := st.nextCategoryId + 1 })

/-- `PUT /api/categories/:id` (server.ts:204): same shape as `putLocation`. -/
def putCategory (st : Store) (id : Nat) (name : Option String) : ApiResult × Store :=
  match name with
  | none => (ApiResult.serverError "Gagal memperbarui kategori.", st)
  | some s =>
    if st.categories.any (fun c => c.id ≠ id ∧ c.name = s) then
      (ApiResult.serverError "Gagal memperbarui kategori.", st)
    else
      (ApiResult.ok,
       { st with
          categories := st.categories.map (fun c => if c.id = id then { c with name := s } else c) })

/-- `DELETE /api/categories/:id` (server.ts:216): 404 when absent, then
counts `materials WHERE category_id = ?` and refuses while positive,
otherwise deletes the row. -/
def deleteCategory (st : Store) (id : Nat) : ApiResult × Store :=
  match st.categories.find? (fun c => c.id = id) with
  | none => (ApiResult.notFound "Kategori tidak ditemukan.", st)
  | some _ =>
    let count := st.materials.countP (fun m => m.category_id = some id)
    if 0 < count then (ApiResult.stillInUse count, st)
    else
      (ApiResult.ok, { st with categories := st.categories.filter (fun c => c.id ≠ id) })

/-- `POST /api/materials` (server.ts:257): rejects missing/empty name or
unit, then inserts without the `stock` column, so `stock` takes its
`DEFAULT 0`.  With `foreign_keys = ON` a non-`NULL` `category_id` that
resolves to no category fails the insert and lands in the catch-all 500. -/
def postMaterial (st : Store) (name : Option String) (category_id : Option Nat)
    (unit : Option String) (min_stock : Option Int) (location : Option String)
    (image : Option String) : ApiResult × Store :=
  match name, unit with
  | none, _ => (ApiResult.validationError "Nama dan Satuan wajib diisi.", st)
  | _, none => (ApiResult.validationError "Nama dan Satuan wajib diisi.", st)
  | some n, some u =>
    if n = "" ∨ u = "" then (ApiResult.validationError "Nama dan Satuan wajib diisi.", st)
    else if category_id.any (fun c => st.categories.all (fun cat => cat.id ≠ c)) then
      (ApiResult.serverError "Gagal membuat bahan baru.", st)
    else
      (ApiResult.okId st.nextMaterialId,
       { st with
          materials := st.materials ++
            [{ id := st.nextMaterialId, name := n, category_id := category_id, unit := u,
               stock := 0, min_stock := min_stock, location := location,
               image := saveImage image }],
          nextMaterialId := st.nextMaterialId + 1 })

/-- The row update of `UPDATE materials SET name = ?, category_id = ?,
unit = ?, min_stock = ?, location = ?, image = ? WHERE id = ?` on one row:
the SET list carries every column except `id` and `stock`. -/
def putUpdate (id : Nat) (n : String) (category_id : Option Nat) (u : String)
    (min_stock : Option Int) (location : Option String) (imagePath : Option String)
    (m : Material) : Material :=
  if m.id = id then
    { m with name := n, category_id := category_id, unit := u,
             min_stock := min_stock, location := location, image := imagePath }
  else m

theorem putUpdate_id (id : Nat) (n : String) (c : Option Nat) (u : String)
    (ms : Option Int) (l : Option String) (ip : Option String) (m : Material) :
    (putUpdate id n c u ms l ip m).id = m.id := by
  unfold putUpdate
  split
  · rfl
  · rfl

theorem putUpdate_stock (id : Nat) (n : String) (c : Option Nat) (u : String)
    (ms : Option Int) (l : Option String) (ip : Option String) (m : Material) :
    (putUpdate id n c u ms l ip m).stock = m.stock := by
  unfold putUpdate
  split
  · rfl
  · rfl

/-- `PUT /api/materials/:id` (server.ts:274): rejects missing/empty name or
unit; re-saves the image only when it is a fresh data-URL; then
`UPDATE materials SET name, category_id, unit, min_stock, location, image
WHERE id = ?` — the `stock` column is not in the SET list.  A dangling
`category_id` fails the foreign-key check and lands in the catch-all 500;
a missing id updates zero rows and still reports success. -/
def putMaterial (st : Store) (id : Nat) (name : Option String) (category_id : Option Nat)
    (unit : Option String) (min_stock : Option Int) (location : Option String)
    (image : Option String) : ApiResult × Store :=
  match name, unit with
  | none, _ => (ApiResult.validationError "Nama dan Satuan wajib diisi.", st)
  | _, none => (ApiResult.validationError "Nama dan Satuan wajib diisi.", st)
  | some n, some u =>
    if n = "" ∨ u = "" then (ApiResult.validationError "Nama dan Satuan wajib diisi.", st)
    else
      let imagePath := if image.any (fun s => s.startsWith "data:image") then saveImage image else image
      if category_id.any (fun c => st.categories.all (fun cat => cat.id ≠ c)) then
        (ApiResult.serverError "Gagal memperbarui bahan.", st)
      else
        (ApiResult.ok,
         { st with
            materials := st.materials.map (putUpdate id n category_id u min_stock location imagePath) })

/-- `DELETE /api/materials/:id` (server.ts:299): 404 when absent; otherwise
one `db.transaction` deletes `transactions WHERE material_id = ?` and then
the material row (SQL `=` never matches a `NULL` material_id). -/
def deleteMaterial (st : Store) (id : Nat) : ApiResult × Store :=
  if st.materials.any (fun m => m.id = id) then
    (ApiResult.ok,
     { st with
        transactions := st.transactions.filter (fun t => t.material_id ≠ some id),
        materials := st.materials.filter (fun m => m.id ≠ id) })
  else (ApiResult.notFound "Bahan tidak ditemukan.", st)

/-- The signed adjustment of `POST /api/transactions`:
`type === 'IN' ? quantity : -quantity`. -/
def signedQty (ty : TxType) (quantity : Int) : Int :=
  if ty = TxType.IN then quantity else -quantity

/-- The row update of `UPDATE materials SET stock = stock + ? WHERE id = ?`
on one row (`=` never matches when the bound id is `NULL`). -/
def stockUpdate (material_id : Option Nat) (adjustment : Int) (m : Material) : Material :=
  if material_id = some m.id then { m with stock := m.stock + adjustment } else m

theorem stockUpdate_id (mo : Option Nat) (adj : Int) (m : Material) :
    (stockUpdate mo adj m).id = m.id := by
  unfold stockUpdate
  split
  · rfl
  · rfl

theorem stockUpdate_stock (mo : Option Nat) (adj : Int) (m : Material) :
    (stockUpdate mo adj m).stock =
      m.stock + (if mo = some m.id then adj else 0) := by
  unfold stockUpdate
  split
  · rfl
  · simp

/-- The body of the `db.transaction` block of `POST /api/transactions`
(server.ts:332): insert the transaction row (stamped with the current
time), then `UPDATE materials SET stock = stock + ? WHERE id = ?`. -/
def applyTx (st : Store) (material_id : Option Nat) (ty : TxType) (quantity : Int)
    (notes : Option String) : Store :=
  { st with
      transactions := st.transactions ++
        [{ id := st.nextTransactionId, material_id := material_id, type := ty,
           quantity := quantity, date := st.clock, notes := notes }],
      materials := st.materials.map (stockUpdate material_id (signedQty ty quantity)),
      nextTransactionId := st.nextTransactionId + 1,
      clock := st.clock + 1 }

/-- `POST /api/transactions` (server.ts:329).  With `foreign_keys = ON`
(server.ts:18) a non-`NULL` `material_id` that resolves to no material makes
the insert throw, the `db.transaction` block rolls back, and — the handler
having no try/catch — Express answers 500.  A `NULL` material_id passes the
foreign-key check; the stock update then matches no row. -/
def postTransaction (st : Store) (material_id : Option Nat) (ty : TxType) (quantity : Int)
    (notes : Option String) : ApiResult × Store :=
  match material_id with
  | some mid =>
    if st.materials.any (fun m => m.id = mid) then
      (ApiResult.ok, applyTx st (some mid) ty quantity notes)
    else
      (ApiResult.serverError "FOREIGN KEY constraint failed", st)
  | none => (ApiResult.ok, applyTx st none ty quantity notes)

/-- `stock <= min_stock` under SQL three-valued logic: a `NULL` `min_stock`
makes the comparison `NULL`, which does not count. -/
def isLowStock (m : Material) : Bool :=
  match m.min_stock with
  | some ms => m.stock ≤ ms
  | none => false

/-- The join of `GET /api/stats`: `FROM transactions t JOIN materials m ON
t.material_id = m.id`, pairing each transaction with its material's name
(ids are the primary key, so at most one material matches). -/
def joinedTx (st : Store) : List (Transaction × String) :=
  st.transactions.filterMap (fun t =>
    (st.materials.find? (fun m => t.material_id = some m.id)).map (fun m => (t, m.name)))

/-- `ORDER BY t.date DESC`: `a` may come before `b` when `b` is no newer. -/
def newestFirst (a b : Transaction × String) : Prop :=
  b.1.date ≤ a.1.date

instance : DecidableRel newestFirst := fun _ _ => Nat.decLe _ _

instance : IsTotal (Transaction × String) newestFirst :=
  ⟨fun a b => Nat.le_total b.1.date a.1.date⟩

instance : IsTrans (Transaction × String) newestFirst :=
  ⟨fun _ _ _ hab hbc => Nat.le_trans hbc hab⟩

/-- The response of `GET /api/stats`. -/
structure DashboardStats where
  totalMaterials : Nat
  lowStock : Nat
  recentTransactions : List (Transaction × String)
deriving DecidableEq, Repr

/-- `GET /api/stats` (server.ts:343): three SELECTs — total material count,
count of `stock <= min_stock`, and the join ordered by `date DESC` with
`LIMIT 5`.  The handler runs no statement that writes, so the store is
returned unchanged. -/
def getStats (st : Store) : DashboardStats × Store :=
  ({ totalMaterials := st.materials.length,
     lowStock := st.materials.countP isLowStock,
     recentTransactions := (List.insertionSort newestFirst (joinedTx st)).take 5 }, st)

/-- The database `initDb` builds on first run (server.ts:41): five
categories, eight locations and five seed materials with nonzero stock, and
no transactions. -/
def seededStore : Store :=
  { categories :=
      [⟨1, "Komponen Elektronika"⟩, ⟨2, "Kabel & Konektor"⟩, ⟨3, "Alat Ukur"⟩,
       ⟨4, "Modul Praktikum"⟩, ⟨5, "Lain-lain"⟩],
    locations :=
      [⟨1, "Rak A1"⟩, ⟨2, "Rak A2"⟩, ⟨3, "Rak B1"⟩, ⟨4, "Rak B2"⟩, ⟨5, "Rak C1"⟩,
       ⟨6, "Lemari Alat"⟩, ⟨7, "Meja Kerja"⟩, ⟨8, "Gudang"⟩],
    materials :=
      [{ id := 1, name := "Resistor 220 Ohm", category_id := some 1, unit := "Pcs",
         stock := 150, min_stock := some 50, location := some "Rak A1", image := none },
       { id := 2, name := "Kabel Jumper Male-Male", category_id := some 2, unit := "Set",
         stock := 20, min_stock := some 10, location := some "Rak B2", image := none },
       { id := 3, name := "Multimeter Digital", category_id := some 3, unit := "Unit",
         stock := 12, min_stock := some 5, location := some "Lemari Alat", image := none },
       { id := 4, name := "Arduino Uno R3", category_id := some 4, unit := "Unit",
         stock := 8, min_stock := some 3, location := some "Rak C1", image := none },
       { id := 5, name := "Solder 40W", category_id := some 5, unit := "Unit",
         stock := 15, min_stock := some 5, location := some "Meja Kerja", image := none }],
    transactions := [],
    nextCategoryId := 6, nextLocationId := 9, nextMaterialId := 6,
    nextTransactionId := 1, clock := 0 }

/-- One mutating API request, for reasoning about operation sequences. -/
inductive Op where
  | opPostCategory (name : Option String)
  | opPutCategory (id : Nat) (name : Option String)
  | opDeleteCategory (id : Nat)
  | opPostLocation (name : Option String)
  | opPutLocation (id : Nat) (name : Option String)
  | opDeleteLocation (id : Nat)
  | opPostMaterial (name : Option String) (category_id : Option Nat) (unit : Option String)
      (min_stock : Option Int) (location : Option String) (image : Option String)
  | opPutMaterial (id : Nat) (name : Option String) (category_id : Option Nat)
      (unit : Option String) (min_stock : Option Int) (location : Option String)
      (image : Option String)
  | opDeleteMaterial (id : Nat)
  | opPostTransaction (material_id : Option Nat) (ty : TxType) (quantity : Int)
      (notes : Option String)
deriving Repr

/-- The store after one request (the response is dropped). -/
def step (st : Store) : Op → Store
  | Op.opPostCategory n => (postCategory st n).2
  | Op.opPutCategory i n => (putCategory st i n).2
  | Op.opDeleteCategory i => (deleteCategory st i).2
  | Op.opPostLocation n => (postLocation st n).2
  | Op.opPutLocation i n => (putLocation st i n).2
  | Op.opDeleteLocation i => (deleteLocation st i).2
  | Op.opPostMaterial n c u ms l im => (postMaterial st n c u ms l im).2
  | Op.opPutMaterial i n c u ms l im => (putMaterial st i n c u ms l im).2
  | Op.opDeleteMaterial i => (deleteMaterial st i).2
  | Op.opPostTransaction m ty q nt => (postTransaction st m ty q nt).2

/-- The store after a sequence of requests. -/
def run (st : Store) : List Op → Store
  | [] => st
  | op :: ops => run (step st op) ops

/-- Sum of the signed quantities of the transactions recorded for a
material id. -/
def signedSum (ts : List Transaction) (mid : Nat) : Int :=
  ((ts.filter (fun t => t.material_id = some mid)).map
    (fun t => signedQty t.type t.quantity)).sum

/-- Every material's cached stock equals the signed sum of its recorded
transactions. -/
def balanced (st : Store) : Prop :=
  ∀ m ∈ st.materials, m.stock = signedSum st.transactions m.id

/-- Every non-`NULL` `material_id` on a transaction row resolves to a
material — the foreign-key discipline the enabled pragma maintains. -/
def txRefsOK (st : Store) : Prop :=
  ∀ t ∈ st.transactions, ∀ mid : Nat, t.material_id = some mid →
    ∃ m ∈ st.materials, m.id = mid

/-- The AUTOINCREMENT counter is strictly above every existing material id. -/
def matIdsFresh (st : Store) : Prop :=
  ∀ m ∈ st.materials, m.id < st.nextMaterialId

/-- The ledger invariant: balance plus the structural facts that make it
inductive. -/
def ledgerInv (st : Store) : Prop :=
  balanced st ∧ txRefsOK st ∧ matIdsFresh st

theorem signedSum_append (ts : List Transaction) (t : Transaction) (mid : Nat) :
    signedSum (ts ++ [t]) mid =
      signedSum ts mid +
        (if t.material_id = some mid then signedQty t.type t.quantity else 0) := by
  unfold signedSum
  rw [List.filter_append, List.map_append, List.sum_append]
  by_cases h : t.material_id = some mid <;> simp [List.filter, h]

theorem signedSum_filter_ne (ts : List Transaction) (i mid : Nat) (h : mid ≠ i) :
    signedSum (ts.filter (fun t => t.material_id ≠ some i)) mid = signedSum ts mid := by
  unfold signedSum
  rw [List.filter_filter]
  congr 2
  apply List.filter_congr
  intro t _
  by_cases ht : t.material_id = some mid <;> simp [ht, h]

theorem signedSum_eq_zero (ts : List Transaction) (mid : Nat)
    (h : ∀ t ∈ ts, t.material_id ≠ some mid) : signedSum ts mid = 0 := by
  unfold signedSum
  rw [List.filter_eq_nil_iff.2 (by intro t ht; simp [h t ht])]
  rfl

/-- The invariant only reads `materials`, `transactions` and
`nextMaterialId`, so any store agreeing on those three fields inherits it. -/
theorem ledgerInv_of_eq {st st' : Store} (hm : st'.materials = st.materials)
    (ht : st'.transactions = st.transactions)
    (hn : st'.nextMaterialId = st.nextMaterialId) (h : ledgerInv st) : ledgerInv st' := by
  obtain ⟨hb, hr, hf⟩ := h
  refine ⟨?_, ?_, ?_⟩
  · intro m hmem
    rw [ht]
    exact hb m (hm ▸ hmem)
  · intro t htm mid hmid
    rw [hm]
    exact hr t (ht ▸ htm) mid hmid
  · intro m hmem
    rw [hn]
    exact hf m (hm ▸ hmem)

theorem postCategory_frame (st : Store) (n : Option String) :
    (postCategory st n).2.materials = st.materials ∧
    (postCategory st n).2.transactions = st.transactions ∧
    (postCategory st n).2.nextMaterialId = st.nextMaterialId := by
  cases n with
  | none => exact ⟨rfl, rfl, rfl⟩
  | some s =>
    unfold postCategory
    dsimp only
    split
    · exact ⟨rfl, rfl, rfl⟩
    · split
      · exact ⟨rfl, rfl, rfl⟩
      · exact ⟨rfl, rfl, rfl⟩

theorem putCategory_frame (st : Store) (i : Nat) (n : Option String) :
    (putCategory st i n).2.materials = st.materials ∧
    (putCategory st i n).2.transactions = st.transactions ∧
    (putCategory st i n).2.nextMaterialId = st.nextMaterialId := by
  cases n with
  | none => exact ⟨rfl, rfl, rfl⟩
  | some s =>
    unfold putCategory
    dsimp only
    split
    · exact ⟨rfl, rfl, rfl⟩
    · exact ⟨rfl, rfl, rfl⟩

theorem deleteCategory_frame (st : Store) (i : Nat) :
    (deleteCategory st i).2.materials = st.materials ∧
    (deleteCategory st i).2.transactions = st.transactions ∧
    (deleteCategory st i).2.nextMaterialId = st.nextMaterialId := by
  unfold deleteCategory
  cases st.categories.find? (fun c => c.id = i) with
  | none => exact ⟨rfl, rfl, rfl⟩
  | some c =>
    dsimp only
    split
    · exact ⟨rfl, rfl, rfl⟩
    · exact ⟨rfl, rfl, rfl⟩

theorem postLocation_frame (st : Store) (n : Option String) :
    (postLocation st n).2.materials = st.materials ∧
    (postLocation st n).2.transactions = st.transactions ∧
    (postLocation st n).2.nextMaterialId = st.nextMaterialId := by
  cases n with
  | none => exact ⟨rfl, rfl, rfl⟩
  | some s =>
    unfold postLocation
    dsimp only
    split
    · exact ⟨rfl, rfl, rfl⟩
    · split
      · exact ⟨rfl, rfl, rfl⟩
      · exact ⟨rfl, rfl, rfl⟩

theorem putLocation_frame (st : Store) (i : Nat) (n : Option String) :
    (putLocation st i n).2.materials = st.materials ∧
    (putLocation st i n).2.transactions = st.transactions ∧
    (putLocation st i n).2.nextMaterialId = st.nextMaterialId := by
  cases n with
  | none => exact ⟨rfl, rfl, rfl⟩
  | some s =>
    unfold putLocation
    dsimp only
    split
    · exact ⟨rfl, rfl, rfl⟩
    · exact ⟨rfl, rfl, rfl⟩

theorem deleteLocation_frame (st : Store) (i : Nat) :
    (deleteLocation st i).2.materials = st.materials ∧
    (deleteLocation st i).2.transactions = st.transactions ∧
    (deleteLocation st i).2.nextMaterialId = st.nextMaterialId := by
  unfold deleteLocation
  cases st.locations.find? (fun l => l.id = i) with
  | none => exact ⟨rfl, rfl, rfl⟩
  | some l =>
    dsimp only
    split
    · exact ⟨rfl, rfl, rfl⟩
    · exact ⟨rfl, rfl, rfl⟩

theorem ledgerInv_postMaterial (st : Store) (n : Option String) (c : Option Nat)
    (u : Option String) (ms : Option Int) (l : Option String) (im : Option String)
    (h : ledgerInv st) : ledgerInv (postMaterial st n c u ms l im).2 := by
  obtain ⟨hb, hr, hf⟩ := h
  cases n with
  | none => cases u <;> exact ⟨hb, hr, hf⟩
  | some nm =>
    cases u with
    | none => exact ⟨hb, hr, hf⟩
    | some un =>
      unfold postMaterial
      dsimp only
      split
      · exact ⟨hb, hr, hf⟩
      · split
        · exact ⟨hb, hr, hf⟩
        · refine ⟨?_, ?_, ?_⟩
          · intro m hm
            dsimp only at hm ⊢
            rcases List.mem_append.1 hm with hmem | hmem
            · exact hb m hmem
            · rw [List.mem_singleton.1 hmem]
              dsimp only
              symm
              apply signedSum_eq_zero
              intro t ht hcontra
              obtain ⟨m', hm', hid⟩ := hr t ht _ hcontra
              have := hf m' hm'
              omega
          · intro t ht mid hmid
            obtain ⟨m', hm', hid⟩ := hr t ht mid hmid
            exact ⟨m', List.mem_append_left _ hm', hid⟩
          · intro m hm
            dsimp only at hm ⊢
            rcases List.mem_append.1 hm with hmem | hmem
            · exact Nat.lt_succ_of_lt (hf m hmem)
            · rw [List.mem_singleton.1 hmem]
              exact Nat.lt_succ_self _

theorem ledgerInv_putMaterial (st : Store) (i : Nat) (n : Option String) (c : Option Nat)
    (u : Option String) (ms : Option Int) (l : Option String) (im : Option String)
    (h : ledgerInv st) : ledgerInv (putMaterial st i n c u ms l im).2 := by
  obtain ⟨hb, hr, hf⟩ := h
  cases n with
  | none => cases u <;> exact ⟨hb, hr, hf⟩
  | some nm =>
    cases u with
    | none => exact ⟨hb, hr, hf⟩
    | some un =>
      unfold putMaterial
      dsimp only
      split
      · exact ⟨hb, hr, hf⟩
      · split
        · exact ⟨hb, hr, hf⟩
        · refine ⟨?_, ?_, ?_⟩
          · intro m' hm'
            dsimp only at hm' ⊢
            obtain ⟨m, hm, hfm⟩ := List.mem_map.1 hm'
            rw [← hfm, putUpdate_id, putUpdate_stock]
            exact hb m hm
          · intro t ht mid hmid
            obtain ⟨m, hm, hid⟩ := hr t ht mid hmid
            exact ⟨_, List.mem_map_of_mem _ hm, (putUpdate_id _ _ _ _ _ _ _ m).trans hid⟩
          · intro m' hm'
            dsimp only at hm' ⊢
            obtain ⟨m, hm, hfm⟩ := List.mem_map.1 hm'
            rw [← hfm, putUpdate_id]
            exact hf m hm

theorem ledgerInv_deleteMaterial (st : Store) (i : Nat)
    (h : ledgerInv st) : ledgerInv (deleteMaterial st i).2 := by
  obtain ⟨hb, hr, hf⟩ := h
  unfold deleteMaterial
  split
  · refine ⟨?_, ?_, ?_⟩
    · intro m hm
      dsimp only at hm ⊢
      obtain ⟨hmem, hne⟩ := List.mem_filter.1 hm
      have hne' : m.id ≠ i := by simpa using hne
      rw [signedSum_filter_ne _ _ _ hne']
      exact hb m hmem
    · intro t ht mid hmid
      dsimp only at ht ⊢
      obtain ⟨htm, htne⟩ := List.mem_filter.1 ht
      have htne' : t.material_id ≠ some i := by simpa using htne
      have hmidne : mid ≠ i := by
        intro hcontra
        exact htne' (hcontra ▸ hmid)
      obtain ⟨m, hm, hid⟩ := hr t htm mid hmid
      refine ⟨m, List.mem_filter.2 ⟨hm, by simp [hid, hmidne]⟩, hid⟩
    · intro m hm
      dsimp only at hm ⊢
      exact hf m (List.mem_filter.1 hm).1
  · exact ⟨hb, hr, hf⟩

theorem applyTx_none_materials (st : Store) (ty : TxType) (q : Int) (nt : Option String) :
    (applyTx st none ty q nt).materials = st.materials := by
  dsimp only [applyTx]
  rw [show List.map (stockUpdate none (signedQty ty q)) st.materials =
      List.map id st.materials from
    List.map_congr_left (fun m _ => by simp [stockUpdate])]
  exact List.map_id _

theorem ledgerInv_postTransaction (st : Store) (mo : Option Nat) (ty : TxType) (q : Int)
    (nt : Option String) (h : ledgerInv st) : ledgerInv (postTransaction st mo ty q nt).2 := by
  obtain ⟨hb, hr, hf⟩ := h
  cases mo with
  | none =>
    have hpt : (postTransaction st none ty q nt).2 = applyTx st none ty q nt := rfl
    rw [hpt]
    refine ⟨?_, ?_, ?_⟩
    · intro m hm
      rw [applyTx_none_materials] at hm
      dsimp only [applyTx]
      rw [signedSum_append]
      simp [hb m hm]
    · intro t ht mid hmid
      dsimp only [applyTx] at ht
      rw [applyTx_none_materials]
      rcases List.mem_append.1 ht with htm | htm
      · exact hr t htm mid hmid
      · rw [List.mem_singleton.1 htm] at hmid
        exact absurd hmid (by simp)
    · intro m hm
      rw [applyTx_none_materials] at hm
      dsimp only [applyTx]
      exact hf m hm
  | some mid =>
    unfold postTransaction
    dsimp only
    split
    · next hany =>
      have hex : ∃ m ∈ st.materials, m.id = mid := by
        simpa using List.any_eq_true.1 hany
      refine ⟨?_, ?_, ?_⟩
      · intro m' hm'
        dsimp only [applyTx] at hm' ⊢
        obtain ⟨m, hm, hfm⟩ := List.mem_map.1 hm'
        rw [← hfm, stockUpdate_id, stockUpdate_stock, signedSum_append, hb m hm]
      · intro t ht mid' hmid'
        dsimp only [applyTx] at ht ⊢
        rcases List.mem_append.1 ht with htm | htm
        · obtain ⟨m, hm, hid⟩ := hr t htm mid' hmid'
          exact ⟨_, List.mem_map_of_mem _ hm, (stockUpdate_id _ _ m).trans hid⟩
        · rw [List.mem_singleton.1 htm] at hmid'
          have hmm : mid = mid' := by simpa using hmid'
          obtain ⟨m, hm, hid⟩ := hex
          exact ⟨_, List.mem_map_of_mem _ hm, (stockUpdate_id _ _ m).trans (hid.trans hmm)⟩
      · intro m' hm'
        dsimp only [applyTx] at hm' ⊢
        obtain ⟨m, hm, hfm⟩ := List.mem_map.1 hm'
        rw [← hfm, stockUpdate_id]
        exact hf m hm
    · exact ⟨hb, hr, hf⟩

/-- Every single API request preserves the ledger invariant. -/
theorem ledgerInv_step (st : Store) (op : Op) (h : ledgerInv st) : ledgerInv (step st op) := by
  cases op with
  | opPostCategory n =>
    obtain ⟨h1, h2, h3⟩ := postCategory_frame st n
    exact ledgerInv_of_eq h1 h2 h3 h
  | opPutCategory i n =>
    obtain ⟨h1, h2, h3⟩ := putCategory_frame st i n
    exact ledgerInv_of_eq h1 h2 h3 h
  | opDeleteCategory i =>
    obtain ⟨h1, h2, h3⟩ := deleteCategory_frame st i
    exact ledgerInv_of_eq h1 h2 h3 h
  | opPostLocation n =>
    obtain ⟨h1, h2, h3⟩ := postLocation_frame st n
    exact ledgerInv_of_eq h1 h2 h3 h
  | opPutLocation i n =>
    obtain ⟨h1, h2, h3⟩ := putLocation_frame st i n
    exact ledgerInv_of_eq h1 h2 h3 h
  | opDeleteLocation i =>
    obtain ⟨h1, h2, h3⟩ := deleteLocation_frame st i
    exact ledgerInv_of_eq h1 h2 h3 h
  | opPostMaterial n c u ms l im => exact ledgerInv_postMaterial st n c u ms l im h
  | opPutMaterial i n c u ms l im => exact ledgerInv_putMaterial st i n c u ms l im h
  | opDeleteMaterial i => exact ledgerInv_deleteMaterial st i h
  | opPostTransaction m ty q nt => exact ledgerInv_postTransaction st m ty q nt h

/-- The ledger invariant holds at every point of every request sequence. -/
theorem ledgerInv_run (st : Store) (ops : List Op) (h : ledgerInv st) :
    ledgerInv (run st ops) := by
  induction ops generalizing st with
  | nil => exact h
  | cons op ops ih => exact ih _ (ledgerInv_step st op h)

/-- A store with empty tables, as a fresh database before seeding. -/
def emptyStore : Store :=
  { categories := [], locations := [], materials := [], transactions := [],
    nextCategoryId := 1, nextLocationId := 1, nextMaterialId := 1,
    nextTransactionId := 1, clock := 0 }

/-- A sample request sequence: create a material, book 7 in, book 2 out. -/
def sampleOps : List Op :=
  [Op.opPostMaterial (some "Baut M3") none (some "Pcs") (some 10) (some "Rak A1") none,
   Op.opPostTransaction (some 1) TxType.IN 7 none,
   Op.opPostTransaction (some 1) TxType.OUT 2 none]

/-- C2 (amended): starting from any store satisfying the ledger invariant —
every material's stock equals the signed sum of its recorded transactions,
every transaction reference resolves, and the material id counter is fresh —
after every request sequence every material still satisfies
`stock = sum of signed quantities`; since every point of a sequence is the
run of a prefix, the equality holds at every point.  Materials created by
`POST /api/materials` start at stock 0, so they satisfy it from creation.
The original claim fails only for the seed materials, which `initDb`
creates with nonzero stock and no transactions (see the counterexample). -/
theorem c2_stock_equals_signedSum (st : Store) (ops : List Op) (h : ledgerInv st) :
    ∀ m ∈ (run st ops).materials, m.stock = signedSum (run st ops).transactions m.id :=
  (ledgerInv_run st ops h).1

/-- C2 counterexample: in the seeded initial store the material with id 1
("Resistor 220 Ohm") has stock 150 while the signed sum of its transactions
since creation is 0, so the claimed equality fails at the creation point of
a material the system itself creates. -/
theorem c2_counterexample :
    ∃ m ∈ seededStore.materials, m.id = 1 ∧ m.stock = 150 ∧
      signedSum seededStore.transactions m.id = 0 ∧
      m.stock ≠ signedSum seededStore.transactions m.id := by decide

/-- C2 witness: the invariant hypothesis is satisfiable — from the empty
store, after creating a material and booking 7 in and 2 out, every
material's stock equals its signed transaction sum. -/
theorem c2_witness :
    ledgerInv emptyStore ∧
      ∀ m ∈ (run emptyStore sampleOps).materials,
        m.stock = signedSum (run emptyStore sampleOps).transactions m.id :=
  ⟨⟨by simp [balanced, emptyStore], by simp [txRefsOK, emptyStore],
    by simp [matIdsFresh, emptyStore]⟩,
   c2_stock_equals_signedSum emptyStore sampleOps
     ⟨by simp [balanced, emptyStore], by simp [txRefsOK, emptyStore],
      by simp [matIdsFresh, emptyStore]⟩⟩

/-- C6: no floor check — in the seeded initial store, material 4
("Arduino Uno R3") has stock 8; an OUT transaction of quantity 100 exceeds
it, yet the operation reports success and the stock becomes −92 < 0. -/
theorem c6_negative_stock :
    (postTransaction seededStore (some 4) TxType.OUT 100 none).1 = ApiResult.ok ∧
    (∃ m ∈ seededStore.materials, m.id = 4 ∧ m.stock = 8 ∧ m.stock < 100) ∧
    ∃ m ∈ (postTransaction seededStore (some 4) TxType.OUT 100 none).2.materials,
      m.id = 4 ∧ m.stock = -92 ∧ m.stock < 0 := by decide

/-- C7 counterexample: seeded store, material id 99 does not exist, yet
`POST /api/transactions` does NOT report success — with `foreign_keys = ON`
the row insert fails, so the handler (which has no try/catch) surfaces an
error, contradicting the claim that success is reported. -/
theorem c7_counterexample :
    (∀ m ∈ seededStore.materials, m.id ≠ 99) ∧
    (postTransaction seededStore (some 99) TxType.IN 5 none).1 ≠ ApiResult.ok ∧
    (postTransaction seededStore (some 99) TxType.IN 5 none).2 = seededStore := by decide

/-- C7 (amended): when the (non-`NULL`) material id resolves to no
material, the transaction insert violates the enabled foreign-key
constraint: the atomic unit rolls back, the store is left completely
unchanged, and an error — not success — is reported.  Only a `NULL`
material id reaches the claimed behaviour: the insert passes, the stock
update affects zero rows, and success is reported. -/
theorem c7_missing_material (st : Store) (mid : Nat) (ty : TxType) (q : Int)
    (nt : Option String) (h : ∀ m ∈ st.materials, m.id ≠ mid) :
    postTransaction st (some mid) ty q nt =
      (ApiResult.serverError "FOREIGN KEY constraint failed", st) ∧
    (postTransaction st none ty q nt).1 = ApiResult.ok ∧
    (postTransaction st none ty q nt).2.materials = st.materials := by
  have hany : (st.materials.any (fun m => m.id = mid)) = false := by
    simpa using h
  refine ⟨?_, rfl, applyTx_none_materials st ty q nt⟩
  unfold postTransaction
  dsimp only
  rw [if_neg]
  rw [hany]
  simp

/-- C7 witness: the amended statement at the seeded store and absent id 99. -/
theorem c7_missing_material_witness :
    postTransaction seededStore (some 99) TxType.IN 5 none =
      (ApiResult.serverError "FOREIGN KEY constraint failed", seededStore) ∧
    (postTransaction seededStore none TxType.IN 5 none).1 = ApiResult.ok ∧
    (postTransaction seededStore none TxType.IN 5 none).2.materials =
      seededStore.materials :=
  c7_missing_material seededStore 99 TxType.IN 5 none (by decide)

/-- C1: recording a transaction for an existing material reports success,
appends exactly one transaction row (the given material id, type, quantity
and notes, stamped with the current time), and updates the materials table
exactly by adding the signed adjustment — `+quantity` for IN, `−quantity`
for OUT, which is `signedQty` — to the stock of the rows with that id,
leaving every other material row and the other tables untouched.  The row
insert and the stock update are a single `db.transaction` block, one pure
step of this model, so no intermediate state exists. -/
theorem c1_recordTransaction (st : Store) (mid : Nat) (ty : TxType) (q : Int)
    (nt : Option String) (h : ∃ m ∈ st.materials, m.id = mid) :
    (postTransaction st (some mid) ty q nt).1 = ApiResult.ok ∧
    (postTransaction st (some mid) ty q nt).2.transactions =
      st.transactions ++
        [{ id := st.nextTransactionId, material_id := some mid, type := ty,
           quantity := q, date := st.clock, notes := nt }] ∧
    (postTransaction st (some mid) ty q nt).2.materials =
      st.materials.map (fun m =>
        if m.id = mid then { m with stock := m.stock + signedQty ty q } else m) ∧
    (∀ m ∈ st.materials, m.id ≠ mid → m ∈ (postTransaction st (some mid) ty q nt).2.materials) ∧
    (∀ m ∈ st.materials, m.id = mid →
      { m with stock := m.stock + signedQty ty q } ∈
        (postTransaction st (some mid) ty q nt).2.materials) ∧
    (postTransaction st (some mid) ty q nt).2.categories = st.categories ∧
    (postTransaction st (some mid) ty q nt).2.locations = st.locations := by
  have hany : (st.materials.any (fun m => m.id = mid)) = true := by
    obtain ⟨m, hm, hid⟩ := h
    exact List.any_eq_true.2 ⟨m, hm, by simp [hid]⟩
  have hred : postTransaction st (some mid) ty q nt =
      (ApiResult.ok, applyTx st (some mid) ty q nt) := by
    unfold postTransaction
    dsimp only
    rw [if_pos hany]
  rw [hred]
  have hmap : st.materials.map (stockUpdate (some mid) (signedQty ty q)) =
      st.materials.map (fun m =>
        if m.id = mid then { m with stock := m.stock + signedQty ty q } else m) := by
    apply List.map_congr_left
    intro m _
    unfold stockUpdate
    by_cases hmi : m.id = mid
    · rw [if_pos (by simp [hmi]), if_pos hmi]
    · rw [if_neg (by simp [Ne.symm hmi]), if_neg hmi]
  refine ⟨rfl, rfl, ?_, ?_, ?_, rfl, rfl⟩
  · dsimp only [applyTx]
    exact hmap
  · intro m hm hne
    dsimp only [applyTx]
    rw [hmap]
    have : (fun m' =>
        if m'.id = mid then { m' with stock := m'.stock + signedQty ty q } else m') m = m := by
      dsimp only
      rw [if_neg hne]
    exact this ▸ List.mem_map_of_mem _ hm
  · intro m hm heq
    dsimp only [applyTx]
    rw [hmap]
    have : (fun m' =>
        if m'.id = mid then { m' with stock := m'.stock + signedQty ty q } else m') m =
        { m with stock := m.stock + signedQty ty q } := by
      dsimp only
      rw [if_pos heq]
    exact this ▸ List.mem_map_of_mem _ hm

/-- C1 witness: booking IN 25 on seeded material 1 succeeds, appends the
one row and raises exactly that stock from 150 to 175. -/
theorem c1_recordTransaction_witness :
    (postTransaction seededStore (some 1) TxType.IN 25 none).1 = ApiResult.ok ∧
    (postTransaction seededStore (some 1) TxType.IN 25 none).2.transactions =
      seededStore.transactions ++
        [{ id := 1, material_id := some 1, type := TxType.IN,
           quantity := 25, date := 0, notes := none }] ∧
    (∀ m ∈ seededStore.materials, m.id = 1 →
      { m with stock := m.stock + signedQty TxType.IN 25 } ∈
        (postTransaction seededStore (some 1) TxType.IN 25 none).2.materials) := by
  have h := c1_recordTransaction seededStore 1 TxType.IN 25 none (by decide)
  exact ⟨h.1, h.2.1, h.2.2.2.2.1⟩

/-- C3: for an id resolving to an existing category (resp. location), the
delete first counts the materials referencing it — categories by
`category_id`, locations by the resolved row's name string — and while the
count is positive it fails reporting exactly that count, returning the
store completely unchanged; with zero dependents it succeeds, removing
precisely the rows with that id and touching nothing else. -/
theorem c3_delete_guard (st : Store) (i : Nat) :
    (∀ c, st.categories.find? (fun x => x.id = i) = some c →
      ((0 < st.materials.countP (fun m => m.category_id = some i) →
        deleteCategory st i =
          (ApiResult.stillInUse (st.materials.countP (fun m => m.category_id = some i)), st)) ∧
       (st.materials.countP (fun m => m.category_id = some i) = 0 →
        deleteCategory st i =
          (ApiResult.ok,
           { st with categories := st.categories.filter (fun x => x.id ≠ i) })))) ∧
    (∀ l, st.locations.find? (fun x => x.id = i) = some l →
      ((0 < st.materials.countP (fun m => m.location = some l.name) →
        deleteLocation st i =
          (ApiResult.stillInUse (st.materials.countP (fun m => m.location = some l.name)), st)) ∧
       (st.materials.countP (fun m => m.location = some l.name) = 0 →
        deleteLocation st i =
          (ApiResult.ok,
           { st with locations := st.locations.filter (fun x => x.id ≠ i) })))) := by
  constructor
  · intro c hc
    constructor
    · intro hn
      unfold deleteCategory
      rw [hc]
      dsimp only
      rw [if_pos hn]
    · intro hn
      unfold deleteCategory
      rw [hc]
      dsimp only
      rw [if_neg (by omega)]
  · intro l hl
    constructor
    · intro hn
      unfold deleteLocation
      rw [hl]
      dsimp only
      rw [if_pos hn]
    · intro hn
      unfold deleteLocation
      rw [hl]
      dsimp only
      rw [if_neg (by omega)]

/-- C3 witness: in the seeded store, category 1 is referenced by one
material, so its deletion fails with count 1 and the store is unchanged;
location 8 ("Gudang") has no dependents, so its deletion succeeds and
removes it. -/
theorem c3_delete_guard_witness :
    deleteCategory seededStore 1 = (ApiResult.stillInUse 1, seededStore) ∧
    (deleteLocation seededStore 8).1 = ApiResult.ok ∧
    ∀ l ∈ (deleteLocation seededStore 8).2.locations, l.id ≠ 8 := by
  have h := c3_delete_guard seededStore 1
  have hc := (h.1 ⟨1, "Komponen Elektronika"⟩ (by decide)).1 (by decide)
  have h8 := c3_delete_guard seededStore 8
  have hl := (h8.2 ⟨8, "Gudang"⟩ (by decide)).2 (by decide)
  refine ⟨hc, ?_, ?_⟩
  · rw [hl]
  · rw [hl]
    decide

/-- C4: `DELETE /api/materials/:id` answers 404 and changes nothing when no
material has the id; otherwise it reports success and, in one atomic block,
removes every transaction whose `material_id` equals the id and then the
material rows with that id — no dependent-count guard — leaving no
transaction referencing the deleted id and every other table untouched. -/
theorem c4_deleteMaterial (st : Store) (i : Nat) :
    ((∀ m ∈ st.materials, m.id ≠ i) →
      deleteMaterial st i = (ApiResult.notFound "Bahan tidak ditemukan.", st)) ∧
    ((∃ m ∈ st.materials, m.id = i) →
      (deleteMaterial st i).1 = ApiResult.ok ∧
      (deleteMaterial st i).2.materials = st.materials.filter (fun m => m.id ≠ i) ∧
      (deleteMaterial st i).2.transactions =
        st.transactions.filter (fun t => t.material_id ≠ some i) ∧
      (∀ t ∈ (deleteMaterial st i).2.transactions, t.material_id ≠ some i) ∧
      (deleteMaterial st i).2.categories = st.categories ∧
      (deleteMaterial st i).2.locations = st.locations) := by
  constructor
  · intro h
    have hany : (st.materials.any (fun m => m.id = i)) = false := by simpa using h
    unfold deleteMaterial
    rw [hany]
    rfl
  · intro h
    have hany : (st.materials.any (fun m => m.id = i)) = true := by
      obtain ⟨m, hm, hid⟩ := h
      exact List.any_eq_true.2 ⟨m, hm, by simp [hid]⟩
    have hred : deleteMaterial st i =
        (ApiResult.ok,
         { st with
            transactions := st.transactions.filter (fun t => t.material_id ≠ some i),
            materials := st.materials.filter (fun m => m.id ≠ i) }) := by
      unfold deleteMaterial
      rw [hany]
      rfl
    rw [hred]
    refine ⟨rfl, rfl, rfl, ?_, rfl, rfl⟩
    intro t ht
    have := (List.mem_filter.1 ht).2
    simpa using this

/-- C4 witness: deleting seeded material 2 succeeds and leaves no material
or transaction with id 2. -/
theorem c4_deleteMaterial_witness :
    (deleteMaterial seededStore 2).1 = ApiResult.ok ∧
    (∀ t ∈ (deleteMaterial seededStore 2).2.transactions, t.material_id ≠ some 2) ∧
    (deleteMaterial seededStore 2).2.materials =
      seededStore.materials.filter (fun m => m.id ≠ 2) := by
  have h := (c4_deleteMaterial seededStore 2).2 (by decide)
  exact ⟨h.1, h.2.2.2.1, h.2.1⟩

/-- C5: `GET /api/stats` returns the store unchanged (it only reads), the
total number of materials, the number of low-stock materials
(`stock <= min_stock`), and at most five recent transactions: a prefix of a
newest-first ordering of the material-name join of all transactions, each
element pairing a stored transaction with its material's name. -/
theorem c5_getStats (st : Store) :
    (getStats st).2 = st ∧
    (getStats st).1.totalMaterials = st.materials.length ∧
    (getStats st).1.lowStock = (st.materials.filter isLowStock).length ∧
    (getStats st).1.recentTransactions.length = min 5 (joinedTx st).length ∧
    (∃ rest, ((getStats st).1.recentTransactions ++ rest).Perm (joinedTx st) ∧
      List.Pairwise newestFirst ((getStats st).1.recentTransactions ++ rest)) ∧
    (∀ p ∈ (getStats st).1.recentTransactions,
      p.1 ∈ st.transactions ∧
      ∃ m ∈ st.materials, p.1.material_id = some m.id ∧ p.2 = m.name) := by
  refine ⟨rfl, rfl, ?_, ?_, ?_, ?_⟩
  · exact List.countP_eq_length_filter _ _
  · show ((List.insertionSort newestFirst (joinedTx st)).take 5).length = _
    rw [List.length_take, List.length_insertionSort]
  · refine ⟨(List.insertionSort newestFirst (joinedTx st)).drop 5, ?_, ?_⟩
    · show ((List.insertionSort newestFirst (joinedTx st)).take 5 ++
        (List.insertionSort newestFirst (joinedTx st)).drop 5).Perm (joinedTx st)
      rw [List.take_append_drop]
      exact List.perm_insertionSort _ _
    · show List.Pairwise newestFirst ((List.insertionSort newestFirst (joinedTx st)).take 5 ++
        (List.insertionSort newestFirst (joinedTx st)).drop 5)
      rw [List.take_append_drop]
      exact List.sorted_insertionSort newestFirst _
  · intro p hp
    have hp1 : p ∈ List.insertionSort newestFirst (joinedTx st) := List.mem_of_mem_take hp
    have hp2 : p ∈ joinedTx st := (List.mem_insertionSort _).1 hp1
    unfold joinedTx at hp2
    obtain ⟨t, ht, hmap⟩ := List.mem_filterMap.1 hp2
    cases hfind : st.materials.find? (fun m => t.material_id = some m.id) with
    | none =>
      rw [hfind] at hmap
      simp at hmap
    | some m =>
      rw [hfind] at hmap
      have hm : m ∈ st.materials := List.mem_of_find?_eq_some hfind
      have hmid : t.material_id = some m.id := by simpa using List.find?_some hfind
      have hp' : p = (t, m.name) := by simpa using hmap.symm
      subst hp'
      exact ⟨ht, m, hm, hmid, rfl⟩

/-- A one-location store for the update counterexamples. -/
def locStore : Store :=
  { emptyStore with locations := [⟨1, "Rak X"⟩], nextLocationId := 2 }

/-- C8 counterexample: the unvalidated location update can rename a
location to the empty string; creating a location with that same
(existing) name is then rejected by the empty-field validation — a
validation error, not the conflict error the claim requires. -/
theorem c8_counterexample :
    (putLocation locStore 1 (some "")).2.locations = [⟨1, ""⟩] ∧
    (∃ l ∈ (putLocation locStore 1 (some "")).2.locations, l.name = "") ∧
    (postLocation (putLocation locStore 1 (some "")).2 (some "")).1 =
      ApiResult.validationError "Nama lokasi wajib diisi." ∧
    (postLocation (putLocation locStore 1 (some "")).2 (some "")).1.isConflict = false ∧
    (postLocation (putLocation locStore 1 (some "")).2 (some "")).2 =
      (putLocation locStore 1 (some "")).2 := by decide

/-- C8 (amended): creating a category or location whose nonempty name
equals an existing record's name fails with the duplicate-name conflict
error and leaves the store completely unchanged; for the empty name — which
can only collide after the unvalidated update renamed a record to "" — the
request is instead rejected up front by the required-field validation, the
store again unchanged. -/
theorem c8_duplicate_create (st : Store) (s : String) :
    (s ≠ "" → (∃ l ∈ st.locations, l.name = s) →
      postLocation st (some s) = (ApiResult.conflictError "Nama lokasi sudah ada.", st)) ∧
    (s ≠ "" → (∃ c ∈ st.categories, c.name = s) →
      postCategory st (some s) = (ApiResult.conflictError "Nama kategori sudah ada.", st)) ∧
    postLocation st (some "") = (ApiResult.validationError "Nama lokasi wajib diisi.", st) ∧
    postCategory st (some "") = (ApiResult.validationError "Nama kategori wajib diisi.", st) := by
  refine ⟨?_, ?_, ?_, ?_⟩
  · intro hs hex
    have hany : (st.locations.any (fun l => l.name = s)) = true := by
      obtain ⟨l, hl, hn⟩ := hex
      exact List.any_eq_true.2 ⟨l, hl, by simp [hn]⟩
    unfold postLocation
    dsimp only
    rw [if_neg hs, if_pos hany]
  · intro hs hex
    have hany : (st.categories.any (fun c => c.name = s)) = true := by
      obtain ⟨c, hc, hn⟩ := hex
      exact List.any_eq_true.2 ⟨c, hc, by simp [hn]⟩
    unfold postCategory
    dsimp only
    rw [if_neg hs, if_pos hany]
  · unfold postLocation
    dsimp only
    rw [if_pos rfl]
  · unfold postCategory
    dsimp only
    rw [if_pos rfl]

/-- C8 witness: in the seeded store, creating the location "Rak A1" and the
category "Alat Ukur" both fail with the conflict error and change
nothing. -/
theorem c8_duplicate_create_witness :
    postLocation seededStore (some "Rak A1") =
      (ApiResult.conflictError "Nama lokasi sudah ada.", seededStore) ∧
    postCategory seededStore (some "Alat Ukur") =
      (ApiResult.conflictError "Nama kategori sudah ada.", seededStore) := by
  have h := c8_duplicate_create seededStore "Rak A1"
  have h' := c8_duplicate_create seededStore "Alat Ukur"
  exact ⟨h.1 (by decide) (by decide), h'.2.1 (by decide) (by decide)⟩

/-- C9 counterexample: the location update accepts an empty name — it
reports success and mutates the store, renaming location 1 to "" —
contradicting the claim that every update rejects empty required
fields without mutating. -/
theorem c9_counterexample :
    (putLocation locStore 1 (some "")).1 = ApiResult.ok ∧
    (putLocation locStore 1 (some "")).2 ≠ locStore ∧
    ∃ l ∈ (putLocation locStore 1 (some "")).2.locations, l.id = 1 ∧ l.name = "" := by
  decide

/-- C9 (amended): the create operations (categories, locations, materials)
and the material update reject an empty or missing required field — the
name, and for materials also the unit — without mutating the store; the
category and location updates, however, perform no such validation: absent
a unique-name collision they report success and write the empty name. -/
theorem c9_validation (st : Store) (i : Nat) (n u : Option String) (c : Option Nat)
    (ms : Option Int) (l im : Option String)
    (hempty : n = none ∨ n = some "" ∨ u = none ∨ u = some "") :
    postLocation st none = (ApiResult.validationError "Nama lokasi wajib diisi.", st) ∧
    postLocation st (some "") = (ApiResult.validationError "Nama lokasi wajib diisi.", st) ∧
    postCategory st none = (ApiResult.validationError "Nama kategori wajib diisi.", st) ∧
    postCategory st (some "") = (ApiResult.validationError "Nama kategori wajib diisi.", st) ∧
    postMaterial st n c u ms l im =
      (ApiResult.validationError "Nama dan Satuan wajib diisi.", st) ∧
    putMaterial st i n c u ms l im =
      (ApiResult.validationError "Nama dan Satuan wajib diisi.", st) ∧
    ((st.locations.any (fun x => x.id ≠ i ∧ x.name = "")) = false →
      (putLocation st i (some "")).1 = ApiResult.ok ∧
      (putLocation st i (some "")).2.locations =
        st.locations.map (fun x => if x.id = i then { x with name := "" } else x)) ∧
    ((st.categories.any (fun x => x.id ≠ i ∧ x.name = "")) = false →
      (putCategory st i (some "")).1 = ApiResult.ok ∧
      (putCategory st i (some "")).2.categories =
        st.categories.map (fun x => if x.id = i then { x with name := "" } else x)) := by
  refine ⟨rfl, ?_, rfl, ?_, ?_, ?_, ?_, ?_⟩
  · unfold postLocation
    dsimp only
    rw [if_pos rfl]
  · unfold postCategory
    dsimp only
    rw [if_pos rfl]
  · rcases hempty with h | h | h | h
    · subst h
      cases u <;> rfl
    · subst h
      cases u with
      | none => rfl
      | some s =>
        unfold postMaterial
        dsimp only
        rw [if_pos (Or.inl rfl)]
    · subst h
      cases n <;> rfl
    · subst h
      cases n with
      | none => rfl
      | some s =>
        unfold postMaterial
        dsimp only
        rw [if_pos (Or.inr rfl)]
  · rcases hempty with h | h | h | h
    · subst h
      cases u <;> rfl
    · subst h
      cases u with
      | none => rfl
      | some s =>
        unfold putMaterial
        dsimp only
        rw [if_pos (Or.inl rfl)]
    · subst h
      cases n <;> rfl
    · subst h
      cases n with
      | none => rfl
      | some s =>
        unfold putMaterial
        dsimp only
        rw [if_pos (Or.inr rfl)]
  · intro hno
    unfold putLocation
    dsimp only
    rw [hno]
    simp
  · intro hno
    unfold putCategory
    dsimp only
    rw [hno]
    simp

/-- C9 witness: creating a material with an empty name is rejected without
mutation, while updating location 1 of the seeded store to the empty name
succeeds. -/
theorem c9_validation_witness :
    postMaterial seededStore (some "") none (some "Pcs") none none none =
      (ApiResult.validationError "Nama dan Satuan wajib diisi.", seededStore) ∧
    (putLocation seededStore 1 (some "")).1 = ApiResult.ok := by
  have h := c9_validation seededStore 1 (some "") (some "Pcs") none none none none
    (Or.inr (Or.inl rfl))
  exact ⟨h.2.2.2.2.1, (h.2.2.2.2.2.2.1 (by decide)).1⟩

/-- C10: the material update never touches the transactions table and
preserves every material's id and stock — only name, category_id, unit,
min_stock, location and image are in its SET list — and the material
create never touches transactions and only adds rows whose stock is the
column default 0, carrying the fresh id; so stock is mutated by the
ledger operation alone. -/
theorem c10_stock_frame (st : Store) (i : Nat) (n u : Option String) (c : Option Nat)
    (ms : Option Int) (l im : Option String) :
    (putMaterial st i n c u ms l im).2.transactions = st.transactions ∧
    (putMaterial st i n c u ms l im).2.materials.map (fun m => (m.id, m.stock)) =
      st.materials.map (fun m => (m.id, m.stock)) ∧
    (postMaterial st n c u ms l im).2.transactions = st.transactions ∧
    (∀ m ∈ (postMaterial st n c u ms l im).2.materials,
      m ∈ st.materials ∨ (m.id = st.nextMaterialId ∧ m.stock = 0)) := by
  refine ⟨?_, ?_, ?_, ?_⟩
  · cases n with
    | none => cases u <;> rfl
    | some nm =>
      cases u with
      | none => rfl
      | some un =>
        unfold putMaterial
        dsimp only
        split
        · rfl
        · split
          · rfl
          · rfl
  · cases n with
    | none => cases u <;> rfl
    | some nm =>
      cases u with
      | none => rfl
      | some un =>
        unfold putMaterial
        dsimp only
        split
        · rfl
        · split
          · rfl
          · dsimp only
            rw [List.map_map]
            apply List.map_congr_left
            intro m _
            simp [Function.comp, putUpdate_id, putUpdate_stock]
  · cases n with
    | none => cases u <;> rfl
    | some nm =>
      cases u with
      | none => rfl
      | some un =>
        unfold postMaterial
        dsimp only
        split
        · rfl
        · split
          · rfl
          · rfl
  · cases n with
    | none => cases u <;> exact fun m hm => Or.inl hm
    | some nm =>
      cases u with
      | none => exact fun m hm => Or.inl hm
      | some un =>
        unfold postMaterial
        dsimp only
        split
        · exact fun m hm => Or.inl hm
        · split
          · exact fun m hm => Or.inl hm
          · intro m hm
            dsimp only at hm
            rcases List.mem_append.1 hm with h | h
            · exact Or.inl h
            · rw [List.mem_singleton.1 h]
              exact Or.inr ⟨rfl, rfl⟩

/-- C5 witness: the stats of the seeded store leave it unchanged and report
its material count; its (empty) recent-transaction list is trivially
well-joined. -/
theorem c5_getStats_witness :
    (getStats seededStore).2 = seededStore ∧
    (getStats seededStore).1.totalMaterials = seededStore.materials.length ∧
    ∀ p ∈ (getStats seededStore).1.recentTransactions,
      p.1 ∈ seededStore.transactions ∧
      ∃ m ∈ seededStore.materials, p.1.material_id = some m.id ∧ p.2 = m.name := by
  have h := c5_getStats seededStore
  exact ⟨h.1, h.2.1, h.2.2.2.2.2⟩

/-- C10 witness: updating seeded material 1 changes no transaction and no
(id, stock) pair. -/
theorem c10_stock_frame_witness :
    (putMaterial seededStore 1 (some "Resistor 1k") (some 1) (some "Pcs") (some 10)
        none none).2.transactions = seededStore.transactions ∧
    (putMaterial seededStore 1 (some "Resistor 1k") (some 1) (some "Pcs") (some 10)
        none none).2.materials.map (fun m => (m.id, m.stock)) =
      seededStore.materials.map (fun m => (m.id, m.stock)) := by
  have h := c10_stock_frame seededStore 1 (some "Resistor 1k") (some "Pcs") (some 1)
    (some 10) none none
  exact ⟨h.1, h.2.1⟩

end Inventory
